import Mathlib

/-!
Shallow embedding of the `poc-react-angular-interop` repository and proofs of
its specification claims.

The repository consists of:
* the React host component `App` (`apps/host-react/src/App.jsx`), which on
  mount dynamically imports `"remoteAngular/AngularApp"`, logging the outcome,
  and renders a fixed markup tree containing the `<angular-app>` tag;
* the Angular remote's `bootstrap.ts`, which creates an Angular application
  and registers the custom element `angular-app`;
* the host's Vite federation config (`vite.config.ts`) and the remote's
  webpack federation config (`webpack.config.js`);
* Turborepo / `wait-on` based build and dev orchestration described in the
  repository's README (the orchestration config files themselves are not
  part of the analysed sources, so those parts are modelled from the spec).
-/

namespace Interop

/-- A console entry: either `console.log msg` or `console.error msg err`. -/
inductive ConsoleEntry
  | log (msg : String)
  | error (msg : String) (err : String)
deriving DecidableEq, Repr

/-- The outcome of the host's dynamic import of the remote module: the
returned promise either resolves or rejects with an error value (modelled as
a string). -/
inductive ImportOutcome
  | resolved
  | rejected (err : String)
deriving DecidableEq, Repr

/-- An observable action performed by the host's effect body. -/
inductive HostAction
  | dynamicImport (specifier : String)
  | consoleLog (msg : String)
  | consoleError (msg : String) (err : String)
deriving DecidableEq, Repr

/-- A markup node, as produced by the host's JSX. -/
inductive Markup
  | element (tag : String) (attrs : List (String × String)) (children : List Markup)
  | text (s : String)

mutual

/-- Whether a markup tree contains an element with the given tag. -/
def containsTag (tag : String) : Markup → Bool
  | .text _ => false
  | .element t _ cs => t == tag || containsTagList tag cs

/-- Whether some tree in a list contains an element with the given tag. -/
def containsTagList (tag : String) : List Markup → Bool
  | [] => false
  | m :: ms => containsTag tag m || containsTagList tag ms

end

/-- The module specifier the host imports (`App.jsx`, line 6:
`import("remoteAngular/AngularApp")`). -/
def hostImportSpecifier : String := "remoteAngular/AngularApp"

/-- The trace of actions the host's effect body performs once the
dynamic import settles (`App.jsx`, lines 5-9): the import itself, then the `.then`
callback (`console.log("✅ Angular remote loaded")`) on resolution, or the
`.catch` callback (`console.error("❌ Failed to load Angular remote", err)`)
on rejection. -/
def effectTrace : ImportOutcome → List HostAction
  | .resolved =>
      [.dynamicImport hostImportSpecifier, .consoleLog "✅ Angular remote loaded"]
  | .rejected err =>
      [.dynamicImport hostImportSpecifier,
       .consoleError "❌ Failed to load Angular remote" err]

/-- The markup returned by the host `App` component (`App.jsx`, lines 11-17).
The JSX does not inspect the import outcome, so the tree is written here
exactly as in the source, with no dependence on it. -/
def appMarkup : Markup :=
  .element "div" [("className", "main-container")]
    [ .element "h2" [] [.text "This is React"]
    , .element "span" [("className", "split")] []
    , .element "angular-app" [] [] ]

/-- What one rendered instance of the host `App` component amounts to: the
markup it returns and the actions of its mount effect, as a function of how
the dynamic import settles. -/
structure HostRender where
  markup : Markup
  effect : List HostAction

/-- The host `App` component (`App.jsx`, lines 4-18). It has no state hooks,
so the import outcome can influence nothing but the effect's console
actions. -/
def hostApp (outcome : ImportOutcome) : HostRender :=
  { markup := appMarkup, effect := effectTrace outcome }

/-- The dependency list of the host's `useEffect`, per render
(`App.jsx`, line 9: the literal `[]`). -/
def appEffectDeps (_render : Nat) : List String := []

/-- React's effect-scheduling rule for a mounted component: the effect body
runs once at mount (render `0`), and again after render `n+1` exactly when
the dependency list differs from the previous render's. `effectRuns deps n`
is the number of runs after `n` re-renders. -/
def effectRuns (deps : Nat → List String) : Nat → Nat
  | 0 => 1
  | n + 1 => effectRuns deps n + (if deps (n + 1) = deps n then 0 else 1)

/-- Number of dynamic imports issued in a list of host actions. -/
def countImports (actions : List HostAction) : Nat :=
  actions.countP fun a => match a with
    | .dynamicImport _ => true
    | _ => false

/-- The console entries produced by a list of host actions. -/
def consoleOf (actions : List HostAction) : List ConsoleEntry :=
  actions.foldr (fun a acc => match a with
    | .consoleLog m => ConsoleEntry.log m :: acc
    | .consoleError m e => ConsoleEntry.error m e :: acc
    | .dynamicImport _ => acc) []

/-! ### The Angular remote's bootstrap module (`bootstrap.ts`) -/

/-- A dependency injector instance, identified opaquely. -/
structure Injector where
  id : Nat
deriving DecidableEq, Repr

/-- The application reference resolved by Angular's `createApplication`; the
bootstrap code reads its `injector` field. -/
structure AppRef where
  injector : Injector
deriving DecidableEq, Repr

/-- The remote's root Angular component, `App` from `./app/app`. -/
inductive NgComponent
  | App
deriving DecidableEq, Repr

/-- The class produced by `createCustomElement(component, { injector })`:
it wraps the given component and injector. -/
structure CustomElementClass where
  component : NgComponent
  injector : Injector
deriving DecidableEq, Repr

/-- `createCustomElement` from `@angular/elements`, as the bootstrap code
uses it: pairs the root component with the supplied injector. -/
def createCustomElement (component : NgComponent) (injector : Injector) :
    CustomElementClass :=
  { component := component, injector := injector }

/-- The outcome of `createApplication({ providers: [...] })`: its promise
resolves with an application reference or rejects with an error. -/
inductive CreateAppOutcome
  | resolved (appRef : AppRef)
  | rejected (err : String)
deriving DecidableEq, Repr

/-- An observable action of the remote's bootstrap module. -/
inductive RemoteAction
  | define (tag : String) (cls : CustomElementClass)
  | consoleLog (msg : String)
deriving DecidableEq, Repr

/-- The trace of actions the remote's `bootstrap.ts` (lines 28-35 of the
combined source) performs once `createApplication` settles. The chain is
`createApplication({...}).then(appRef => { ... })` with no rejection handler:
on resolution it defines `angular-app` with `createCustomElement(App,
{ injector: appRef.injector })` and logs a registration message; on
rejection nothing runs. -/
def bootstrapTrace : CreateAppOutcome → List RemoteAction
  | .resolved appRef =>
      [.define "angular-app" (createCustomElement .App appRef.injector),
       .consoleLog "✅ Angular Web Component registered"]
  | .rejected _ => []

/-- The unhandled rejection left by the bootstrap chain: the promise chain in
`bootstrap.ts` ends at the `.then` with no `.catch`, so a rejection of
`createApplication` propagates unhandled. -/
def bootstrapUnhandledRejection : CreateAppOutcome → Option String
  | .resolved _ => none
  | .rejected err => some err

/-- The custom-element registrations performed by a remote action trace, in
order: the pairs passed to `customElements.define`. -/
def definitionsOf (actions : List RemoteAction) : List (String × CustomElementClass) :=
  actions.foldr (fun a acc => match a with
    | .define tag cls => (tag, cls) :: acc
    | .consoleLog _ => acc) []

/-- The console entries produced by a remote action trace. -/
def remoteConsoleOf (actions : List RemoteAction) : List ConsoleEntry :=
  actions.foldr (fun a acc => match a with
    | .consoleLog m => ConsoleEntry.log m :: acc
    | .define _ _ => acc) []

/-! ### Federation configuration on both sides -/

/-- The host's federation options (`vite.config.ts`, lines 8-13): the
`remotes` map from alias to entry-script URL, and the `shared` list. -/
structure HostFederationConfig where
  remotes : List (String × String)
  shared : List String
deriving DecidableEq, Repr

/-- The host's federation config as written in `vite.config.ts`. -/
def hostFederation : HostFederationConfig :=
  { remotes := [("remoteAngular", "http://localhost:4201/remoteEntry.js")],
    shared := ["react", "react-dom"] }

/-- Options attached to a shared package in the remote's webpack config. -/
structure SharedOptions where
  singleton : Bool
  strictVersion : Bool
deriving DecidableEq, Repr

/-- The remote's federation options (`webpack.config.js`, lines 5-15):
the federation `name`, the `exposes` map from exposed key to module path,
and the `shared` map. -/
structure RemoteFederationConfig where
  name : String
  exposes : List (String × String)
  shared : List (String × SharedOptions)
deriving DecidableEq, Repr

/-- The remote's federation config as written in `webpack.config.js`. -/
def remoteFederation : RemoteFederationConfig :=
  { name := "remoteAngular",
    exposes := [("./AngularApp", "./src/bootstrap.ts")],
    shared :=
      [ ("@angular/core", { singleton := true, strictVersion := true })
      , ("@angular/common", { singleton := true, strictVersion := true })
      , ("@angular/router", { singleton := true, strictVersion := true }) ] }

/-- The characters before the first `/` of a character list. -/
def charsBeforeSlash : List Char → List Char
  | [] => []
  | c :: cs => if c = '/' then [] else c :: charsBeforeSlash cs

/-- The characters after the first `/` of a character list. -/
def charsAfterSlash : List Char → List Char
  | [] => []
  | c :: cs => if c = '/' then cs else charsAfterSlash cs

/-- The remote alias of a module specifier: the part before the first `/`. -/
def specifierAlias (s : String) : String :=
  String.mk (charsBeforeSlash s.data)

/-- The subpath of a module specifier: the part after the first `/`. -/
def specifierSubpath (s : String) : String :=
  String.mk (charsAfterSlash s.data)

/-- Module-federation resolution of a specifier `alias/subpath` against the
two configs: the alias must be a key of the host's `remotes` map and must
equal the remote's federation `name`; the subpath, prefixed with `./`, is
looked up in the remote's `exposes` map, yielding the module it resolves
to. -/
def resolveImport (host : HostFederationConfig) (remote : RemoteFederationConfig)
    (specifier : String) : Option String :=
  match host.remotes.lookup (specifierAlias specifier) with
  | none => none
  | some _ =>
      if remote.name = specifierAlias specifier then
        remote.exposes.lookup ("./" ++ specifierSubpath specifier)
      else none

/-! ### Dev orchestration: the remote-readiness gate

The package scripts and the Turborepo config are not among the analysed
sources; the polling gate and the build ordering are therefore modelled from
the spec, which describes them. -/

/-- The result of the remote-readiness poll. -/
inductive PollResult
  | ready (attempt : Nat)
  | timedOut (message : String)
deriving DecidableEq, Repr

/-- Modelled from the spec: the generic polling utility (the `wait-on` step
of the sequential dev start), whose invoking script is missing from the
analysed sources. Per the spec it repeatedly issues an HTTP request to a
known URL at a fixed interval until a success status is observed or a
timeout elapses, and on timeout fails with a message naming the unreachable
URL. `respondsOk k` says whether the `k`-th request observes a success
status; `fuel` is how many further requests the timeout still allows. -/
def pollFrom (respondsOk : Nat → Bool) (url : String) : Nat → Nat → PollResult
  | 0, _ => .timedOut ("Timed out waiting for: " ++ url)
  | fuel + 1, attempt =>
      if respondsOk attempt then .ready attempt
      else pollFrom respondsOk url fuel (attempt + 1)

/-- The readiness poll, started at the first request. -/
def pollLoop (respondsOk : Nat → Bool) (url : String) (maxAttempts : Nat) :
    PollResult :=
  pollFrom respondsOk url maxAttempts 0

/-- An event of the sequential dev start. -/
inductive DevEvent
  | startRemote
  | httpRequest (attempt : Nat) (ok : Bool)
  | startHost
  | failWith (message : String)
deriving DecidableEq, Repr

/-- Modelled from the spec: the sequential dev start described in the
README's "How the Sequential Start Works" (its script is missing from the
analysed sources). It starts the remote dev server, runs the readiness poll
against the remote's entry URL, and starts the host dev server only after
the poll observes a success status; if the poll times out it fails with the
poll's message instead. -/
def devSequential (respondsOk : Nat → Bool) (url : String) (maxAttempts : Nat) :
    List DevEvent :=
  DevEvent.startRemote ::
    match pollLoop respondsOk url maxAttempts with
    | .ready k =>
        ((List.range (k + 1)).map fun j => .httpRequest j (respondsOk j))
          ++ [.startHost]
    | .timedOut m =>
        ((List.range maxAttempts).map fun j => .httpRequest j (respondsOk j))
          ++ [.failWith m]

/-! ### Build orchestration: task-dependency ordering -/

/-- The two application build tasks of the monorepo. -/
inductive BuildTask
  | remoteAngular
  | hostReact
deriving DecidableEq, Repr

/-- Modelled from the spec: the Turborepo task dependencies for a full
build (the turbo config is missing from the analysed sources). Per the
spec and README, the host's build depends on the remote's build
("Turborepo will build Angular first (dependency), then React host"). -/
def buildDeps : BuildTask → List BuildTask
  | .hostReact => [.remoteAngular]
  | .remoteAngular => []

/-- A build schedule: the instants each task's build starts and finishes
(its output artifacts complete at `finish`). -/
structure BuildSchedule where
  start : BuildTask → Nat
  finish : BuildTask → Nat

/-- A schedule the task runner may produce: every task finishes no earlier
than it starts, and no task starts before each of its dependencies has
finished. -/
def BuildSchedule.valid (s : BuildSchedule) : Prop :=
  (∀ t, s.start t ≤ s.finish t) ∧
  ∀ t d, d ∈ buildDeps t → s.finish d ≤ s.start t

/-- A concrete full-build schedule: the remote builds during `[0, 1]` and
the host during `[2, 3]`. -/
def sampleSchedule : BuildSchedule :=
  { start := fun t => match t with | .remoteAngular => 0 | .hostReact => 2,
    finish := fun t => match t with | .remoteAngular => 1 | .hostReact => 3 }

/-! ### Environment independence -/

/-- The observable behaviour of every piece of logic in the repository,
bundled. -/
structure RepoBehaviour where
  host : ImportOutcome → HostRender
  remoteBootstrap : CreateAppOutcome → List RemoteAction
  hostConfig : HostFederationConfig
  remoteConfig : RemoteFederationConfig

/-- The repository's logic as a function of the process environment (a map
from variable names to values). No analysed source reads an environment
variable — no `process.env` or `import.meta.env` occurs in the host glue,
the remote bootstrap, or either federation config — so each component's
embedding stands on the right-hand side unchanged by `env`. -/
def repoBehaviour (_env : List (String × String)) : RepoBehaviour :=
  { host := hostApp, remoteBootstrap := bootstrapTrace,
    hostConfig := hostFederation, remoteConfig := remoteFederation }

/-! ### Helper lemmas -/

/-- The fixed markup of the host `App` contains the `angular-app` tag. -/
theorem appMarkup_contains_angular_app :
    containsTag "angular-app" appMarkup = true := by decide

/-- If the poll, started at `attempt` with `fuel` requests remaining,
reports readiness at `k`, then request `k` observed a success status and
every earlier request from `attempt` on did not. -/
theorem pollFrom_ready (respondsOk : Nat → Bool) (url : String) :
    ∀ fuel attempt k, pollFrom respondsOk url fuel attempt = .ready k →
      attempt ≤ k ∧ respondsOk k = true ∧
      ∀ j, attempt ≤ j → j < k → respondsOk j = false := by
  intro fuel
  induction fuel with
  | zero =>
    intro attempt k h
    simp [pollFrom] at h
  | succ n ih =>
    intro attempt k h
    cases hr : respondsOk attempt with
    | true =>
      simp [pollFrom, hr] at h
      subst h
      exact ⟨Nat.le_refl _, hr, fun j hj1 hj2 => absurd hj2 (Nat.not_lt.mpr hj1)⟩
    | false =>
      simp [pollFrom, hr] at h
      obtain ⟨h1, h2, h3⟩ := ih (attempt + 1) k h
      refine ⟨by omega, h2, fun j hj1 hj2 => ?_⟩
      rcases Nat.eq_or_lt_of_le hj1 with rfl | hlt
      · exact hr
      · exact h3 j hlt hj2

/-- If the poll, started at `attempt` with `fuel` requests remaining, times
out, its message names the polled URL and none of the `fuel` requests
observed a success status. -/
theorem pollFrom_timedOut (respondsOk : Nat → Bool) (url : String) :
    ∀ fuel attempt m, pollFrom respondsOk url fuel attempt = .timedOut m →
      m = "Timed out waiting for: " ++ url ∧
      ∀ j, attempt ≤ j → j < attempt + fuel → respondsOk j = false := by
  intro fuel
  induction fuel with
  | zero =>
    intro attempt m h
    simp [pollFrom] at h
    exact ⟨h.symm, fun j hj1 hj2 => absurd hj2 (by omega)⟩
  | succ n ih =>
    intro attempt m h
    cases hr : respondsOk attempt with
    | true => simp [pollFrom, hr] at h
    | false =>
      simp [pollFrom, hr] at h
      obtain ⟨h1, h2⟩ := ih (attempt + 1) m h
      refine ⟨h1, fun j hj1 hj2 => ?_⟩
      rcases Nat.eq_or_lt_of_le hj1 with rfl | hlt
      · exact hr
      · exact h2 j hlt (by omega)

/-! ### The claims -/

/-- Claim C1: every outcome of the host's dynamic import of
`remoteAngular/AngularApp` is observed by the attached callback pair: on
resolution the effect performs the import and then logs the success
message, on rejection it performs the import and then logs the error to
the console, and in both cases it performs nothing further — the markup
the component returns is the fixed `appMarkup` either way, so there is no
UI fallback, no retry and no user-visible state change. -/
theorem import_outcome_observed_via_callbacks (err : String) :
    (hostApp .resolved).effect =
      [.dynamicImport hostImportSpecifier, .consoleLog "✅ Angular remote loaded"] ∧
    (hostApp (.rejected err)).effect =
      [.dynamicImport hostImportSpecifier,
       .consoleError "❌ Failed to load Angular remote" err] ∧
    (∀ o, (hostApp o).markup = appMarkup) :=
  ⟨rfl, rfl, fun _ => rfl⟩

/-- Claim C2: the markup the host's `App` renders is the same whether the
dynamic import resolves or rejects, and it always contains the custom
element tag `angular-app`; an unreachable remote entry script therefore
leaves the host's rendered markup unchanged. -/
theorem host_markup_independent_of_import (o : ImportOutcome) :
    (hostApp o).markup = (hostApp .resolved).markup ∧
    containsTag "angular-app" (hostApp o).markup = true := by
  cases o <;> exact ⟨rfl, appMarkup_contains_angular_app⟩

/-- Claim C3: when the remote's exposed module runs and application
creation resolves, the bootstrap registers exactly one custom element,
under the fixed tag `angular-app`, built by `createCustomElement` from the
remote's root component `App` and the injector taken from the created
application, and then logs the registration message. -/
theorem remote_registers_single_custom_element (appRef : AppRef) :
    bootstrapTrace (.resolved appRef) =
      [.define "angular-app" (createCustomElement .App appRef.injector),
       .consoleLog "✅ Angular Web Component registered"] ∧
    definitionsOf (bootstrapTrace (.resolved appRef)) =
      [("angular-app", createCustomElement .App appRef.injector)] ∧
    remoteConsoleOf (bootstrapTrace (.resolved appRef)) =
      [.log "✅ Angular Web Component registered"] :=
  ⟨rfl, rfl, rfl⟩

/-- Claim C4: the specifier the host imports is consistent with both
federation configs: its alias is `remoteAngular`, which is a key of the
host's `remotes` map and equals the remote's federation name, and its
subpath `AngularApp`, prefixed with `./`, is the key the remote exposes,
mapped to `./src/bootstrap.ts`; hence module-federation resolution takes
the host's import to the remote's bootstrap module. -/
theorem specifier_consistent_with_configs :
    specifierAlias hostImportSpecifier = "remoteAngular" ∧
    specifierSubpath hostImportSpecifier = "AngularApp" ∧
    specifierAlias hostImportSpecifier = remoteFederation.name ∧
    (hostFederation.remotes.lookup (specifierAlias hostImportSpecifier)).isSome = true ∧
    remoteFederation.exposes.lookup ("./" ++ specifierSubpath hostImportSpecifier) =
      some "./src/bootstrap.ts" ∧
    resolveImport hostFederation remoteFederation hostImportSpecifier =
      some "./src/bootstrap.ts" := by decide

/-- Claim C5: the host's bundler config names the fixed development URL
`http://localhost:4201/remoteEntry.js` as the source of the logical alias
`remoteAngular`: the `remotes` map holds exactly this one binding, so the
alias always resolves to that entry URL. -/
theorem host_config_names_remote_entry_url :
    hostFederation.remotes =
      [("remoteAngular", "http://localhost:4201/remoteEntry.js")] ∧
    hostFederation.remotes.lookup "remoteAngular" =
      some "http://localhost:4201/remoteEntry.js" := by decide

/-- Claim C6: the host's effect has an empty dependency list, so however
many re-renders follow a mount, React runs the effect exactly once; the
run issues a single dynamic import, and on a rejected import the trace
holds that one import followed only by the console error — no timeout
action and no second import attempt. -/
theorem import_issued_once_never_retried (n : Nat) (err : String) :
    effectRuns appEffectDeps n = 1 ∧
    countImports (hostApp (.rejected err)).effect = 1 ∧
    consoleOf (hostApp (.rejected err)).effect =
      [.error "❌ Failed to load Angular remote" err] := by
  refine ⟨?_, rfl, rfl⟩
  induction n with
  | zero => rfl
  | succ k ih => simp [effectRuns, appEffectDeps, ih]

/-- Claim C7: the remote-readiness gate polls at a fixed cadence: whenever
the poll reports success at request `k`, that request observed a success
status and no earlier request did; the host dev server is started only
when the poll reports success; and on a timeout the gate fails with a
message naming the unreachable URL, never starts the host, and indeed no
request within the allowance had observed success. -/
theorem readiness_gate_blocks_host_start (respondsOk : Nat → Bool)
    (url : String) (maxAttempts : Nat) :
    (∀ k, pollLoop respondsOk url maxAttempts = .ready k →
        respondsOk k = true ∧ ∀ j, j < k → respondsOk j = false) ∧
    (DevEvent.startHost ∈ devSequential respondsOk url maxAttempts →
        ∃ k, pollLoop respondsOk url maxAttempts = .ready k) ∧
    (∀ m, pollLoop respondsOk url maxAttempts = .timedOut m →
        m = "Timed out waiting for: " ++ url ∧
        DevEvent.startHost ∉ devSequential respondsOk url maxAttempts ∧
        DevEvent.failWith m ∈ devSequential respondsOk url maxAttempts ∧
        ∀ j, j < maxAttempts → respondsOk j = false) := by
  refine ⟨?_, ?_, ?_⟩
  · intro k h
    obtain ⟨-, h2, h3⟩ := pollFrom_ready respondsOk url maxAttempts 0 k h
    exact ⟨h2, fun j hj => h3 j (Nat.zero_le j) hj⟩
  · intro hmem
    cases hres : pollLoop respondsOk url maxAttempts with
    | ready k => exact ⟨k, rfl⟩
    | timedOut m =>
      simp only [devSequential, hres] at hmem
      simp at hmem
  · intro m h
    obtain ⟨h1, h2⟩ := pollFrom_timedOut respondsOk url maxAttempts 0 m h
    refine ⟨h1, ?_, ?_, fun j hj => h2 j (Nat.zero_le j) (by omega)⟩
    · intro hmem
      simp only [devSequential, h] at hmem
      simp at hmem
    · simp only [devSequential, h]
      simp

/-- Witness for claim C7: with a remote that first responds at the third
request and an allowance of five requests, the poll reports success at
request `2`, that request observed success and the two earlier ones did
not. -/
theorem readiness_gate_blocks_host_start_witness :
    pollLoop (fun n => n == 2) "http://localhost:4201/remoteEntry.js" 5 =
      .ready 2 ∧
    ((fun n : Nat => n == 2) 2 = true ∧
      ∀ j, j < 2 → (fun n : Nat => n == 2) j = false) :=
  ⟨by decide,
   (readiness_gate_blocks_host_start (fun n => n == 2)
      "http://localhost:4201/remoteEntry.js" 5).1 2 (by decide)⟩

/-- Claim C8: under the task-dependency ordering, every valid full-build
schedule finishes the remote's build before the host's build starts, and
hence before the host's output artifacts complete. -/
theorem remote_artifacts_before_host (s : BuildSchedule) (h : s.valid) :
    s.finish .remoteAngular ≤ s.start .hostReact ∧
    s.finish .remoteAngular ≤ s.finish .hostReact := by
  obtain ⟨hsf, hdep⟩ := h
  have h1 : s.finish .remoteAngular ≤ s.start .hostReact :=
    hdep .hostReact .remoteAngular (by simp [buildDeps])
  exact ⟨h1, Nat.le_trans h1 (hsf .hostReact)⟩

/-- Witness for claim C8: the concrete schedule building the remote during
`[0, 1]` and the host during `[2, 3]` is valid, and on it the remote's
finish precedes the host's start and finish. -/
theorem remote_artifacts_before_host_witness :
    sampleSchedule.valid ∧
    (sampleSchedule.finish .remoteAngular ≤ sampleSchedule.start .hostReact ∧
     sampleSchedule.finish .remoteAngular ≤ sampleSchedule.finish .hostReact) := by
  have hv : sampleSchedule.valid := by
    constructor
    · intro t; cases t <;> decide
    · intro t d hd
      cases t with
      | remoteAngular => simp [buildDeps] at hd
      | hostReact =>
        simp [buildDeps] at hd
        subst hd
        decide
  exact ⟨hv, remote_artifacts_before_host sampleSchedule hv⟩

/-- Claim C9: if `createApplication` rejects, the bootstrap chain — which
attaches no rejection handler — runs nothing: no custom element is
defined, nothing is logged, and the rejection is left unhandled; a
resolution, by contrast, always leads to the registration. -/
theorem bootstrap_rejection_unhandled (err : String) (appRef : AppRef) :
    bootstrapTrace (.rejected err) = [] ∧
    definitionsOf (bootstrapTrace (.rejected err)) = [] ∧
    remoteConsoleOf (bootstrapTrace (.rejected err)) = [] ∧
    bootstrapUnhandledRejection (.rejected err) = some err ∧
    bootstrapUnhandledRejection (.resolved appRef) = none ∧
    definitionsOf (bootstrapTrace (.resolved appRef)) =
      [("angular-app", createCustomElement .App appRef.injector)] :=
  ⟨rfl, rfl, rfl, rfl, rfl, rfl⟩

/-- Claim C10: no logic in the repository consumes environment variables:
two runs differing only in their environment have identical behaviour
across the host glue code, the remote bootstrap and both federation
configurations. -/
theorem behaviour_independent_of_environment (e₁ e₂ : List (String × String)) :
    repoBehaviour e₁ = repoBehaviour e₂ := rfl

end Interop
